import Mathlib

/-!
Shallow embedding of the Market Data Feed Decoder and Sequence Integrity
Monitor of src/tools/md_recv.py (function main, lines 42-98), together
with theorems settling the specification claims about it.

Datagrams are byte lists (List Nat, one entry per byte).  Python slices
data[a:b] clamp at the end of the buffer; struct.unpack raises
struct.error when the slice length differs from the format size, and
the ASCII decode of the symbol bytes raises UnicodeDecodeError on any
byte at or above 128.  Both exceptions are modelled explicitly, because
the receive loop catches every exception, prints the error and breaks
(lines 89-91).
-/

set_option maxRecDepth 100000

namespace MdRecv

/-- Python slice data[a:b]: drop a elements, then take at most b - a. -/
def slice (data : List Nat) (a b : Nat) : List Nat :=
  (data.drop a).take (b - a)

/-- Little-endian integer value of a byte list (first byte least significant). -/
def leVal : List Nat → Nat
  | [] => 0
  | b :: rest => b + 256 * leVal rest

/-- Python rstrip with the NUL byte: remove trailing zero bytes. -/
def rstripNul (bs : List Nat) : List Nat :=
  (bs.reverse.dropWhile (· == 0)).reverse

/-- The ASCII decode of a byte string succeeds exactly when every byte is
below 128 (the ascii codec accepts all seven-bit bytes, printable or not). -/
def asciiOk (bs : List Nat) : Bool :=
  bs.all (· < 128)

/-- The 24-byte common header, struct.unpack of LLQQ on data[:24] (line 54). -/
structure Header where
  msg_type : Nat
  length : Nat
  sequence : Nat
  timestamp : Nat
deriving DecidableEq, Repr

def parseHeader (data : List Nat) : Header :=
  { msg_type := leVal (slice data 0 4)
    length := leVal (slice data 4 8)
    sequence := leVal (slice data 8 16)
    timestamp := leVal (slice data 16 24) }

/-- The mutable session counters of main (lines 42-44): messages_received,
expected_sequence (initialised to 1), gaps_detected. -/
structure SeqState where
  messages_received : Nat
  expected_sequence : Nat
  gaps_detected : Nat
deriving DecidableEq, Repr

def initState : SeqState := ⟨0, 1, 0⟩

/-- The gap report printed at line 59: expected and received sequence. -/
structure GapReport where
  expected : Nat
  received : Nat
deriving DecidableEq, Repr

/-- Lines 57-62: the gap check fires only when the sequence differs from the
expected one and messages_received is positive; in every case
expected_sequence becomes sequence + 1 and messages_received grows by one. -/
def observe (st : SeqState) (sequence : Nat) : SeqState × Option GapReport :=
  if sequence ≠ st.expected_sequence ∧ 0 < st.messages_received then
    (⟨st.messages_received + 1, sequence + 1, st.gaps_detected + 1⟩,
      some ⟨st.expected_sequence, sequence⟩)
  else
    (⟨st.messages_received + 1, sequence + 1, st.gaps_detected⟩, none)

/-- Feed a list of sequence numbers through observe, collecting the emitted
gap reports in order. -/
def observeAll (st : SeqState) : List Nat → SeqState × List GapReport
  | [] => (st, [])
  | s :: rest =>
    ((observeAll (observe st s).1 rest).1,
      (observe st s).2.toList ++ (observeAll (observe st s).1 rest).2)

/-- Python exceptions the payload parsing can raise. -/
inductive PyExn where
  | structError
  | unicodeDecodeError
deriving DecidableEq, Repr

/-- What the payload branch of the loop body does with one datagram: the
decoded fields that get printed, or the silent skip of a short payload. -/
inductive Event where
  | bbo (symbol : List Nat) (bid_price bid_qty ask_price ask_qty : Nat)
  | bboSkipped
  | trade (trade_id : Nat) (symbol : List Nat) (quantity price side : Nat)
  | tradeSkipped
  | depth (symbol : List Nat) (num_bids num_asks : Nat)
  | unknown (msg_type : Nat)
deriving DecidableEq, Repr

/-- Lines 64-85: type dispatch and payload parsing.  Mirrors the source
guards exactly: type 201 checks len(data) >= 56 before unpacking
data[32:64] (which needs 32 bytes), type 202 checks len(data) >= 49 before
unpacking data[24:32] (8 bytes) and data[40:57] (17 bytes), and type 203
has no length check before unpacking data[32:34] (2 bytes).  Operations
appear in the source evaluation order, so the first failing one determines
the raised exception. -/
def parsePayload (msg_type : Nat) (data : List Nat) : Except PyExn Event :=
  if msg_type = 201 then
    if 56 ≤ data.length then
      if asciiOk (rstripNul (slice data 24 32)) then
        if (slice data 32 64).length = 32 then
          .ok (.bbo (rstripNul (slice data 24 32))
            (leVal (slice data 32 40)) (leVal (slice data 40 48))
            (leVal (slice data 48 56)) (leVal (slice data 56 64)))
        else .error .structError
      else .error .unicodeDecodeError
    else .ok .bboSkipped
  else if msg_type = 202 then
    if 49 ≤ data.length then
      if (slice data 24 32).length = 8 then
        if asciiOk (rstripNul (slice data 32 40)) then
          if (slice data 40 57).length = 17 then
            .ok (.trade (leVal (slice data 24 32)) (rstripNul (slice data 32 40))
              (leVal (slice data 40 48)) (leVal (slice data 48 56))
              (leVal (slice data 56 57)))
          else .error .structError
        else .error .unicodeDecodeError
      else .error .structError
    else .ok .tradeSkipped
  else if msg_type = 203 then
    if asciiOk (rstripNul (slice data 24 32)) then
      if (slice data 32 34).length = 2 then
        .ok (.depth (rstripNul (slice data 24 32))
          (leVal (slice data 32 33)) (leVal (slice data 33 34)))
      else .error .structError
    else .error .unicodeDecodeError
  else .ok (.unknown msg_type)

/-- Outcome of one iteration of the receive loop for one datagram. -/
inductive DatagramResult where
  | tooShort
  | ok (hdr : Header) (gap : Option GapReport) (event : Event)
  | exn (hdr : Header) (gap : Option GapReport) (e : PyExn)
deriving DecidableEq, Repr

/-- Lines 50-85: one loop iteration.  Buffers shorter than 24 bytes are
skipped before any bookkeeping (lines 50-51); otherwise the header is
parsed, sequence tracking runs (lines 57-62), and then the payload is
parsed. -/
def processDatagram (st : SeqState) (data : List Nat) : SeqState × DatagramResult :=
  if data.length < 24 then (st, .tooShort)
  else
    match parsePayload (parseHeader data).msg_type data with
    | .ok ev =>
        ((observe st (parseHeader data).sequence).1,
          .ok (parseHeader data) (observe st (parseHeader data).sequence).2 ev)
    | .error e =>
        ((observe st (parseHeader data).sequence).1,
          .exn (parseHeader data) (observe st (parseHeader data).sequence).2 e)

def DatagramResult.isExn : DatagramResult → Bool
  | .exn _ _ _ => true
  | _ => false

/-- The receive loop (lines 47-91) over a finite list of incoming datagrams:
each datagram is processed in order, but a raised exception is caught by the
outer handler, which prints the error and breaks (lines 89-91) — later
datagrams are never processed. -/
def runLoop (st : SeqState) : List (List Nat) → SeqState × List DatagramResult
  | [] => (st, [])
  | d :: rest =>
    if (processDatagram st d).2.isExn then
      ((processDatagram st d).1, [(processDatagram st d).2])
    else
      ((runLoop (processDatagram st d).1 rest).1,
        (processDatagram st d).2 :: (runLoop (processDatagram st d).1 rest).2)

/-- Round n / d to the nearest integer, ties to even (d positive). -/
def roundHalfEven (n d : Nat) : Nat :=
  if n % d * 2 < d then n / d
  else if d < n % d * 2 then n / d + 1
  else if n / d % 2 = 0 then n / d else n / d + 1

/-- Number of binary digits of n, by fuel-bounded recursion; the fuel is
an upper bound on the bit count (400 covers every value arising here). -/
def bitLen : Nat → Nat → Nat
  | 0, _ => 0
  | fuel + 1, n => if n = 0 then 0 else bitLen fuel (n / 2) + 1

/-- The cent value displayed for the raw price v at lines 69 and 77.  The
source computes price/10000 with Python true division of two ints, which
is the IEEE-754 binary64 value nearest to the exact rational v / 10000
(ties to even), and then formats it with two decimal places, which rounds
the exact value of that double to hundredths, again ties to even.  Both
correctly-rounded steps are computed here over the integers: the quotient
is scaled by 2 ^ 200, its 53-bit significand m and binary scale are
extracted, and the exact double value m / 2 ^ (252 - k) is rounded to
cents.  Faithful for v below 2 ^ 64, the full range the wire format
allows for the price field. -/
def displayCents (v : Nat) : Nat :=
  if v = 0 then 0
  else
    let num := v * 2 ^ 200
    let k := bitLen 400 (num / 10000) - 1
    let m := roundHalfEven num (10000 * 2 ^ (k - 52))
    roundHalfEven (m * 100) (2 ^ (200 + 52 - k))

/-- Two-digit decimal rendering of the fractional part. -/
def twoDigits (n : Nat) : String :=
  if n < 10 then "0" ++ toString n else toString n

/-- The price string produced by the two-decimal float format: integer
part, a dot, and exactly two fractional digits. -/
def priceDisplay (v : Nat) : String :=
  toString (displayCents v / 100) ++ "." ++ twoDigits (displayCents v % 100)

/-- Line 76: side_str is BUY if side equals 1 and SELL otherwise. -/
def sideStr (side : Nat) : String :=
  if side = 1 then "BUY" else "SELL"

/-- Invariant relating the gap and message counters of the session. -/
def SeqState.Inv (st : SeqState) : Prop :=
  (st.messages_received = 0 ∧ st.gaps_detected = 0) ∨
    st.gaps_detected + 1 ≤ st.messages_received

/-- Little-endian encoding of a value into a fixed number of bytes, for
building concrete test datagrams. -/
def leBytes : Nat → Nat → List Nat
  | 0, _ => []
  | n + 1, v => v % 256 :: leBytes n (v / 256)

/-- A concrete datagram with the given type and sequence, padded with zero
bytes to the given total length (at least 24). -/
def mkDatagram (msgType seq padTo : Nat) : List Nat :=
  leBytes 4 msgType ++ leBytes 4 0 ++ leBytes 8 seq ++ leBytes 8 0 ++
    List.replicate (padTo - 24) 0

/-- A 64-byte type-201 datagram with sequence 1 whose symbol field starts
with the given byte, followed by seven NUL bytes and 32 zero payload bytes. -/
def bboWithSymbolByte (b : Nat) : List Nat :=
  leBytes 4 201 ++ leBytes 4 0 ++ leBytes 8 1 ++ leBytes 8 0 ++
    (b :: List.replicate 7 0) ++ List.replicate 32 0

/-- A 57-byte type-202 datagram with sequence 1, zeroed fields, and the
side byte (offset 56) set to the given value. -/
def tradeWithSide (b : Nat) : List Nat :=
  leBytes 4 202 ++ leBytes 4 0 ++ leBytes 8 1 ++ leBytes 8 0 ++
    List.replicate 32 0 ++ [b]

end MdRecv

namespace MdRecv

lemma observe_mr (st : SeqState) (s : Nat) :
    (observe st s).1.messages_received = st.messages_received + 1 := by
  unfold observe; split <;> rfl

lemma observe_exp (st : SeqState) (s : Nat) :
    (observe st s).1.expected_sequence = s + 1 := by
  unfold observe; split <;> rfl

lemma observe_gaps_le (st : SeqState) (s : Nat) :
    (observe st s).1.gaps_detected ≤ st.gaps_detected + 1 := by
  unfold observe; split <;> simp

lemma observe_gaps_ge (st : SeqState) (s : Nat) :
    st.gaps_detected ≤ (observe st s).1.gaps_detected := by
  unfold observe; split <;> simp

lemma observe_gaps_of_mr_zero (st : SeqState) (s : Nat)
    (h : st.messages_received = 0) :
    (observe st s).1.gaps_detected = st.gaps_detected := by
  unfold observe
  rw [if_neg (by simp [h])]

lemma processDatagram_fst_cases (st : SeqState) (d : List Nat) :
    (processDatagram st d).1 = st ∨
      (processDatagram st d).1 = (observe st (parseHeader d).sequence).1 := by
  unfold processDatagram
  split
  · exact Or.inl rfl
  · rcases hp : parsePayload (parseHeader d).msg_type d with ev | e <;> simp [hp]

/-- C5: the Sequence Integrity Monitor transition function: a first
observation (messages_received = 0) sets expected_sequence to sequence + 1
with no gap; a matching observation advances with no gap; a mismatching
observation after the first increments gaps_detected, emits the
GapReport with the expected and received sequences, and resets
expected_sequence to sequence + 1 regardless of direction.  Processing
[1,2,3,5,6] yields one gap with report (expected 4, received 5), and
processing [1,2,2,3] yields the report (expected 3, received 2) at the
repeated 2, with expected_sequence equal to 3 right afterwards. -/
theorem C5_monitor_transitions :
    (∀ (st : SeqState) (s : Nat), st.messages_received = 0 →
      observe st s = (⟨st.messages_received + 1, s + 1, st.gaps_detected⟩, none)) ∧
    (∀ (st : SeqState) (s : Nat), s = st.expected_sequence →
      observe st s = (⟨st.messages_received + 1, s + 1, st.gaps_detected⟩, none)) ∧
    (∀ (st : SeqState) (s : Nat), 0 < st.messages_received →
      s ≠ st.expected_sequence →
      observe st s = (⟨st.messages_received + 1, s + 1, st.gaps_detected + 1⟩,
        some ⟨st.expected_sequence, s⟩)) ∧
    observeAll initState [1, 2, 3, 5, 6] = (⟨5, 7, 1⟩, [⟨4, 5⟩]) ∧
    observeAll initState [1, 2, 2, 3] = (⟨4, 4, 1⟩, [⟨3, 2⟩]) ∧
    (observeAll initState [1, 2, 2]).1.expected_sequence = 3 := by
  refine ⟨?_, ?_, ?_, by decide, by decide, by decide⟩
  · intro st s h
    unfold observe
    rw [if_neg (by simp [h])]
  · intro st s h
    unfold observe
    rw [if_neg (by simp [h])]
  · intro st s hmr hne
    unfold observe
    rw [if_pos ⟨hne, hmr⟩]

/-- Witness for C5 at concrete states: a first observation of 9, a matching
observation of 5, and a mismatching observation of 7 against expected 5. -/
theorem C5_monitor_transitions_witness :
    observe ⟨0, 1, 0⟩ 9 = (⟨1, 10, 0⟩, none) ∧
    observe ⟨3, 5, 0⟩ 5 = (⟨4, 6, 0⟩, none) ∧
    observe ⟨3, 5, 0⟩ 7 = (⟨4, 8, 1⟩, some ⟨5, 7⟩) :=
  ⟨C5_monitor_transitions.1 ⟨0, 1, 0⟩ 9 rfl,
   C5_monitor_transitions.2.1 ⟨3, 5, 0⟩ 5 rfl,
   C5_monitor_transitions.2.2.1 ⟨3, 5, 0⟩ 7 (by decide) (by decide)⟩

/-- C6: the monitor is invoked exactly for datagrams yielding a valid
header.  A buffer shorter than 24 bytes is dropped with no sequence
bookkeeping (the state is returned unchanged); a buffer of length at least
24 whose message type is none of 201, 202, 203 yields the unknown-type
result carrying the parsed header, and expected_sequence is still updated
to sequence + 1. -/
theorem C6_monitor_exactly_on_valid_header :
    (∀ (st : SeqState) (data : List Nat), data.length < 24 →
      processDatagram st data = (st, .tooShort)) ∧
    (∀ (st : SeqState) (data : List Nat), 24 ≤ data.length →
      (parseHeader data).msg_type ≠ 201 → (parseHeader data).msg_type ≠ 202 →
      (parseHeader data).msg_type ≠ 203 →
      processDatagram st data =
        ((observe st (parseHeader data).sequence).1,
          .ok (parseHeader data) (observe st (parseHeader data).sequence).2
            (.unknown (parseHeader data).msg_type)) ∧
      (observe st (parseHeader data).sequence).1.expected_sequence =
        (parseHeader data).sequence + 1) := by
  constructor
  · intro st data h
    unfold processDatagram
    rw [if_pos h]
  · intro st data hlen h1 h2 h3
    refine ⟨?_, observe_exp st (parseHeader data).sequence⟩
    unfold processDatagram
    rw [if_neg (by omega)]
    have hp : parsePayload (parseHeader data).msg_type data =
        .ok (.unknown (parseHeader data).msg_type) := by
      unfold parsePayload
      rw [if_neg h1, if_neg h2, if_neg h3]
    rw [hp]

/-- Witness for C6: a 10-byte buffer is dropped without bookkeeping, and a
24-byte buffer of type 7 yields the unknown-type result with the expected
sequence updated. -/
theorem C6_monitor_exactly_on_valid_header_witness :
    processDatagram initState (List.replicate 10 0) = (initState, .tooShort) ∧
    processDatagram initState (mkDatagram 7 1 24) =
      ((observe initState 1).1,
        .ok ⟨7, 0, 1, 0⟩ (observe initState 1).2 (.unknown 7)) :=
  ⟨C6_monitor_exactly_on_valid_header.1 initState (List.replicate 10 0) (by decide),
   ((C6_monitor_exactly_on_valid_header.2 initState (mkDatagram 7 1 24)
      (by decide) (by decide) (by decide) (by decide)).1.trans (by decide))⟩

end MdRecv

namespace MdRecv

/-- C1 (code behavior at the failing input): a 50-byte type-202 datagram
raises struct.error during payload decoding; the outer handler catches it
and breaks, so the receive loop terminates and a following well-formed
24-byte datagram is never processed — the results list has a single entry.
This refutes the claim that no single malformed datagram terminates the
session. -/
theorem C1_break_on_malformed_datagram :
    runLoop initState [mkDatagram 202 1 50, mkDatagram 7 2 24] =
      (⟨1, 2, 0⟩, [.exn ⟨202, 0, 1, 0⟩ none .structError]) ∧
    (runLoop initState [mkDatagram 202 1 50, mkDatagram 7 2 24]).2.length = 1 := by
  constructor <;> decide

/-- C2 (code behavior at the failing input): a 50-byte buffer declaring
message_type 202 passes the source length guard (len >= 49), partially
decodes trade_id and symbol, then raises struct.error unpacking
data[40:57]; the header did feed sequence tracking (messages_received 1,
expected_sequence 2). -/
theorem C2_trade_50_bytes_struct_error :
    processDatagram initState (mkDatagram 202 1 50) =
      (⟨1, 2, 0⟩, .exn ⟨202, 0, 1, 0⟩ none .structError) := by
  decide

/-- C3 (code behavior at the failing input): a 56-byte buffer declaring
message_type 201 passes the source length guard (len >= 56), decodes the
symbol, then raises struct.error unpacking data[32:64]; it is not skipped.
The header did feed sequence tracking. -/
theorem C3_bbo_56_bytes_struct_error :
    processDatagram initState (mkDatagram 201 1 56) =
      (⟨1, 2, 0⟩, .exn ⟨201, 0, 1, 0⟩ none .structError) := by
  decide

/-- C4 (code behavior at the failing input): a 24-byte buffer declaring
message_type 203 reaches the depth branch, which has no length guard, and
raises struct.error unpacking data[32:34]; the header did feed sequence
tracking. -/
theorem C4_depth_24_bytes_struct_error :
    processDatagram initState (mkDatagram 203 1 24) =
      (⟨1, 2, 0⟩, .exn ⟨203, 0, 1, 0⟩ none .structError) := by
  decide

/-- C7 (code behavior at the failing inputs): a 64-byte type-201 datagram
whose symbol field starts with byte 255 raises UnicodeDecodeError (caught
by the outer handler, which breaks the loop), while a symbol byte 1 — a
seven-bit but non-printable character — decodes with no error result at
all.  Neither case produces a recoverable invalid-symbol result. -/
theorem C7_symbol_decode_behavior :
    processDatagram initState (bboWithSymbolByte 255) =
      (⟨1, 2, 0⟩, .exn ⟨201, 0, 1, 0⟩ none .unicodeDecodeError) ∧
    processDatagram initState (bboWithSymbolByte 1) =
      (⟨1, 2, 0⟩, .ok ⟨201, 0, 1, 0⟩ none (.bbo [1] 0 0 0 0)) := by
  constructor <;> decide

lemma twoDigits_length (f : Nat) (h : f < 100) : (twoDigits f).length = 2 := by
  revert f h
  decide

/-- C8 counterexample: raw price 12345 displays as 1.23 under the
double-precision division and two-decimal format of lines 69 and 77, not
as 1.2345, so the displayed price is not v / 10000 with all four implied
decimal digits preserved. -/
theorem C8_display_counterexample :
    priceDisplay 12345 = "1.23" ∧ priceDisplay 12345 ≠ "1.2345" := by
  constructor <;> decide

/-- C8 amended: the displayed price is the binary64 double nearest to
v / 10000 rendered with exactly two decimal digits — an integer part, a
dot, and a two-character fraction field — so the four implied decimal
digits are not preserved: 12345 displays as 1.23.  The concrete values
pin the double pipeline down: at v = 2 ^ 64 - 1 the display is
1844674407370955.25, whose cent value is 885 raw units away from v, and
the multiple of 100 v = 10 ^ 18 + 100 displays with fraction 02 where
the exact hundredths digit string is 01. -/
theorem C8_two_decimal_format :
    priceDisplay 12345 = "1.23" ∧
    priceDisplay 1500000 = "150.00" ∧
    priceDisplay 18446744073709551615 = "1844674407370955.25" ∧
    displayCents 18446744073709551615 * 100 = 18446744073709551615 + 885 ∧
    priceDisplay 1000000000000000100 = "100000000000000.02" ∧
    ∀ v : Nat, ∃ i f : Nat, f < 100 ∧
      priceDisplay v = toString i ++ "." ++ twoDigits f ∧
      (twoDigits f).length = 2 := by
  refine ⟨by decide, by decide, by decide, by decide, by decide, ?_⟩
  intro v
  refine ⟨displayCents v / 100, displayCents v % 100, ?_, rfl, ?_⟩
  · exact Nat.mod_lt _ (by norm_num)
  · exact twoDigits_length _ (Nat.mod_lt _ (by norm_num))

/-- C9 counterexample: side value 3 is rendered SELL, the same
classification as side 2, so values other than 1 and 2 do not receive a
distinct unknown-side classification. -/
theorem C9_counterexample_side3 :
    sideStr 3 = "SELL" ∧ sideStr 2 = "SELL" := by
  constructor <;> decide

/-- C9 amended: the side field is classified BUY exactly when it equals 1
and SELL for every other value (including values other than 1 and 2); an
out-of-range side is not fatal to the decode — a 57-byte trade datagram
with side 3 decodes successfully. -/
theorem C9_side_classification :
    (∀ side : Nat, (sideStr side = "BUY" ↔ side = 1) ∧
      (side ≠ 1 → sideStr side = "SELL")) ∧
    processDatagram initState (tradeWithSide 3) =
      (⟨1, 2, 0⟩, .ok ⟨202, 0, 1, 0⟩ none (.trade 0 [] 0 0 3)) := by
  refine ⟨?_, by decide⟩
  intro side
  by_cases h : side = 1
  · subst h
    exact ⟨by simp [sideStr], fun hc => absurd rfl hc⟩
  · refine ⟨?_, fun _ => by simp [sideStr, h]⟩
    rw [sideStr, if_neg h]
    constructor
    · intro hb
      exact absurd hb (by decide)
    · intro h1
      exact absurd h1 h

/-- Witness for C9 at side 5: rendered SELL and not BUY. -/
theorem C9_side_classification_witness :
    sideStr 5 = "SELL" ∧ ¬ (5 = 1) :=
  ⟨(C9_side_classification.1 5).2 (by decide),
   fun h => absurd ((C9_side_classification.1 5).1.mpr h) (by decide)⟩

end MdRecv

namespace MdRecv

lemma inv_observe (st : SeqState) (s : Nat) (h : st.Inv) : (observe st s).1.Inv := by
  unfold SeqState.Inv at h ⊢
  rcases h with ⟨h0, hg⟩ | hle
  · right
    rw [observe_mr, observe_gaps_of_mr_zero st s h0, hg]
    omega
  · right
    have hub := observe_gaps_le st s
    rw [observe_mr]
    omega

lemma inv_processDatagram (st : SeqState) (d : List Nat) (h : st.Inv) :
    (processDatagram st d).1.Inv := by
  rcases processDatagram_fst_cases st d with hc | hc <;> rw [hc]
  · exact h
  · exact inv_observe st (parseHeader d).sequence h

lemma inv_runLoop (ds : List (List Nat)) (st : SeqState) (h : st.Inv) :
    (runLoop st ds).1.Inv := by
  induction ds generalizing st with
  | nil => exact h
  | cons d rest ih =>
    unfold runLoop
    split
    · exact inv_processDatagram st d h
    · exact ih (processDatagram st d).1 (inv_processDatagram st d h)

/-- C10: each datagram moves the session counters by at most one step up
(messages_received and gaps_detected are non-decreasing, each growing by at
most 1), and after any sequence of datagrams starting from the initial
state, gaps_detected + 1 is at most messages_received whenever at least
one message was received, and gaps_detected is 0 while messages_received
is at most 1 — the end-of-session report never shows more gaps than
headers accepted after the first. -/
theorem C10_counter_invariant :
    (∀ (st : SeqState) (d : List Nat),
      st.messages_received ≤ (processDatagram st d).1.messages_received ∧
      (processDatagram st d).1.messages_received ≤ st.messages_received + 1 ∧
      st.gaps_detected ≤ (processDatagram st d).1.gaps_detected ∧
      (processDatagram st d).1.gaps_detected ≤ st.gaps_detected + 1) ∧
    (∀ ds : List (List Nat),
      (1 ≤ (runLoop initState ds).1.messages_received →
        (runLoop initState ds).1.gaps_detected + 1 ≤
          (runLoop initState ds).1.messages_received) ∧
      ((runLoop initState ds).1.messages_received ≤ 1 →
        (runLoop initState ds).1.gaps_detected = 0)) := by
  constructor
  · intro st d
    rcases processDatagram_fst_cases st d with hc | hc <;> rw [hc]
    · omega
    · have h1 := observe_mr st (parseHeader d).sequence
      have h2 := observe_gaps_le st (parseHeader d).sequence
      have h3 := observe_gaps_ge st (parseHeader d).sequence
      omega
  · intro ds
    have hinv := inv_runLoop ds initState (Or.inl ⟨rfl, rfl⟩)
    unfold SeqState.Inv at hinv
    rcases hinv with ⟨h0, hg⟩ | hle
    · constructor
      · intro h1
        omega
      · intro _
        exact hg
    · constructor
      · intro _
        exact hle
      · intro h1
        omega

/-- Witness for C10: the single-step bounds at the initial state on a
24-byte unknown-type datagram, and the final-state facts for the
one-datagram session (one message, zero gaps). -/
theorem C10_counter_invariant_witness :
    ((processDatagram initState (mkDatagram 7 1 24)).1.messages_received ≤
      initState.messages_received + 1) ∧
    (runLoop initState [mkDatagram 7 1 24]).1.gaps_detected + 1 ≤
      (runLoop initState [mkDatagram 7 1 24]).1.messages_received ∧
    (runLoop initState [mkDatagram 7 1 24]).1.gaps_detected = 0 :=
  ⟨(C10_counter_invariant.1 initState (mkDatagram 7 1 24)).2.1,
   (C10_counter_invariant.2 [mkDatagram 7 1 24]).1 (by decide),
   (C10_counter_invariant.2 [mkDatagram 7 1 24]).2 (by decide)⟩

end MdRecv
